import Mathlib

/-!
# Deskflow `AppConfig`: scope resolution, merge-read, recall and commit

A shallow embedding of `src/lib/gui/config/AppConfig.cpp`.

* `QVariant`, `QString.trimmed`: the Qt value container and string trimming the
  code calls into.
* `ConfigScopes`: the two-tier key/value store behind `IConfigScopes &m_Scopes`.
* `AppConfig`: the in-memory fields together with the store they read and write.
  Every member function is a function `AppConfig → AppConfig` (or a pure query).
-/

namespace deskflow.gui

/-! ## Qt values -/

/-- Qt library model of `QChar::isSpace`: the ASCII blanks U+0009..U+000D and U+0020, then
U+0085, U+00A0 and the Unicode separator categories Zs, Zl and Zp. -/
def QChar.isSpace (c : Char) : Bool :=
  let n := c.toNat
  n == 0x20 || (0x09 ≤ n && n ≤ 0x0D) || n == 0x85 || n == 0xA0 || n == 0x1680 ||
    (0x2000 ≤ n && n ≤ 0x200A) || n == 0x2028 || n == 0x2029 || n == 0x202F ||
    n == 0x205F || n == 0x3000

/-- Qt library model of `QString::trimmed()`: whitespace removed from the start and the end. -/
def QString.trimmed (s : String) : String :=
  ⟨((s.data.dropWhile QChar.isSpace).reverse.dropWhile QChar.isSpace).reverse⟩

/-- Qt library model of `QString::isEmpty()`. -/
def QString.isEmpty (s : String) : Bool :=
  s.data.isEmpty

/-- Decimal digits of a non-empty all-digit character list. -/
def QString.parseDigits (cs : List Char) : Option Nat :=
  if cs.isEmpty || !cs.all Char.isDigit then none
  else some (cs.foldl (fun n c => 10 * n + (c.toNat - 48)) 0)

/-- Qt library model of `QString::toInt()` (base 10, C locale): surrounding whitespace is
skipped, one sign is allowed, and a failed or out-of-range conversion gives `0`. -/
def QString.toInt (s : String) : Int :=
  let r : Option Int :=
    match (QString.trimmed s).data with
    | '-' :: ds => (QString.parseDigits ds).map (fun n => -(n : Int))
    | '+' :: ds => (QString.parseDigits ds).map (fun n => (n : Int))
    | ds => (QString.parseDigits ds).map (fun n => (n : Int))
  match r with
  | some i => if -2147483648 ≤ i ∧ i ≤ 2147483647 then i else 0
  | none => 0

/-- The dynamically typed value the store holds (`QVariant`): a default-constructed
(invalid) variant, a `bool`, an `int` or a `QString`. -/
inductive QVariant where
  | invalid
  | bool (b : Bool)
  | int (i : Int)
  | string (s : String)
  deriving DecidableEq, Repr

namespace QVariant

/-- Qt library model of `QVariant::isValid()`. -/
def isValid : QVariant → Bool
  | invalid => false
  | _ => true

/-- Qt library model of `QVariant::toBool()`: a number is true when non-zero, a string unless its
lower-case content is empty, `"0"` or `"false"`. -/
def toBool : QVariant → Bool
  | invalid => false
  | bool b => b
  | int i => i != 0
  | string s => !(s.toLower == "" || s.toLower == "0" || s.toLower == "false")

/-- Qt library model of `QVariant::toInt()`. -/
def toInt : QVariant → Int
  | invalid => 0
  | bool b => if b then 1 else 0
  | int i => i
  | string s => QString.toInt s

/-- Qt library model of `QVariant::toString()`. -/
def toString : QVariant → String
  | invalid => ""
  | bool b => if b then "true" else "false"
  | int i => ToString.toString i
  | string s => s

end QVariant

/-! ## The scope store -/

/-- Modelled from the spec: the declaration of `ConfigScopes::Scope` (ConfigScopes.h) is not
part of the source at hand; the spec gives a scope as one of exactly two values, `User` and
`System`. -/
inductive Scope where
  | User
  | System
  deriving DecidableEq, Repr

/-- Modelled from the spec: the store behind `IConfigScopes` (ConfigScopes.h/.cpp), which is not
part of the source at hand. Each scope is an independent flat namespace of string-keyed
typed values; exactly one scope is active; a scope has a writable property; `ready` counts
the readiness notifications emitted so far. -/
structure ConfigScopes where
  user : String → Option QVariant
  system : String → Option QVariant
  active : Scope
  writable : Scope → Bool
  ready : Nat

namespace ConfigScopes

/-- The stored values of one scope. -/
def store (s : ConfigScopes) : Scope → String → Option QVariant
  | .User => s.user
  | .System => s.system

/-- Modelled from the spec: `activeScope() -> Scope`. -/
def activeScope (s : ConfigScopes) : Scope :=
  s.active

/-- An omitted scope argument stands for the active scope. -/
def resolve (s : ConfigScopes) : Option Scope → Scope
  | none => s.activeScope
  | some scope => scope

/-- Modelled from the spec: `contains(key, scope?) -> bool`, existence check, defaulting to
the active scope if unspecified. -/
def scopeContains (s : ConfigScopes) (name : String) (scope : Option Scope) : Bool :=
  (s.store (s.resolve scope) name).isSome

/-- Modelled from the spec: `get(key, default, scope?) -> ConfigValue`, read with default,
defaulting to the active scope. -/
def getFromScope (s : ConfigScopes) (name : String) (defaultValue : QVariant)
    (scope : Option Scope) : QVariant :=
  (s.store (s.resolve scope) name).getD defaultValue

/-- Modelled from the spec: `set(key, value, scope?) -> void`, typed write, defaulting to the
active scope. -/
def setInScope (s : ConfigScopes) (name : String) (value : QVariant)
    (scope : Option Scope) : ConfigScopes :=
  match s.resolve scope with
  | .User => { s with user := fun k => if k = name then some value else s.user k }
  | .System => { s with system := fun k => if k = name then some value else s.system k }

/-- Modelled from the spec: `setActiveScope(Scope) -> void`. -/
def setActiveScope (s : ConfigScopes) (scope : Scope) : ConfigScopes :=
  { s with active := scope }

/-- Modelled from the spec: `isActiveScopeWritable() -> bool`. -/
def isActiveScopeWritable (s : ConfigScopes) : Bool :=
  s.writable s.activeScope

/-- Modelled from the spec: `signalReady() -> void`, one more readiness notification. -/
def signalReady (s : ConfigScopes) : ConfigScopes :=
  { s with ready := s.ready + 1 }

end ConfigScopes

/-! ## Setting registry -/

/-- The key strings, by setting index (`AppConfig::m_SettingsName`). -/
def m_SettingsName : List String := [
  "screenName",
  "port",
  "interface",
  "logLevel2",
  "logToFile",
  "logFilename",
  "", -- 6 wizardLastRun, obsolete
  "", -- 7 statedBefore moved to deskflow settings
  "elevateMode",
  "elevateModeEnum",
  "", -- 10 = edition, obsolete (using serial key instead)
  "", -- 11 = kTlsEnabled (retain legacy string value) Moved to Settings
  "", -- 12 AutoHide, moved to Settings
  "", -- 13 = serialKey, obsolete
  "", -- 14 last Version moved ot deskflow settings
  "", -- 15 = lastExpiringWarningTime, obsolete
  "", -- 16 = activationHasRun, obsolete
  "", -- 17 = minimizeToTray, obsolete
  "", -- 18 = ActivateEmail, obsolete
  "loadFromSystemScope",
  "groupServerChecked", -- kServerGroupChecked
  "", -- 21 = use external config moved to deskflow settings
  "", -- 22 config file moved to dekflow settings
  "useInternalConfig",
  "groupClientChecked",
  "", -- 25 server host name moved to deskflow settings
  "", -- 26 cert path moved to deskflow settings
  "", -- 27 key length Moved to Deskflow settings
  "", -- 28 Prevent sleep moved to deskflow settings
  "", -- 29 Language sync moved to deskflow settings
  "", -- 30 = invertscrolldriection moved to deskflow settings
  "", -- 31 = guid, obsolete
  "", -- 32 = licenseRegistryUrl, obsolete
  "", -- 33 = licenseNextCheck, obsolete
  "", -- 34 = kInvertConnection, obsolete
  "", -- 35 = clientHostMode, obsolete
  "", -- 36 = serverClientMode, obsolete
  "enableService",
  "", -- 38 Moved to deskflow settings
  "", -- 39 window size moved to deskflow settings
  "", -- 40 window position moved to deskflow settings
  "", -- 41 = Show dev thanks, obsolete
  "", -- 42 show Close Reminder moved to deskflow settings
  "", -- 43 Moved to deskflow settings
  "", -- 44, Moved to deskflow settings.
  "", -- 45 Moved to deskflow settings
  "" -- 46 require peer certs, Moved to deskflow settings
]

/-- Modelled from the spec: the declaration of `AppConfig::Setting` (AppConfig.h) is not part of
the source at hand. These are the enumerators the code uses; each one's index is the slot of
`m_SettingsName` holding the key the spec names for it (`elevateMode` is the legacy boolean
key, `elevateModeEnum` the canonical enumerated one). -/
inductive Setting where
  | kScreenName
  | kPort
  | kInterface
  | kLogLevel
  | kLogToFile
  | kLogFilename
  | kElevateModeLegacy
  | kElevateMode
  | kLoadSystemSettings
  | kServerGroupChecked
  | kUseInternalConfig
  | kClientGroupChecked
  | kEnableService
  deriving DecidableEq, Repr

/-- The integer value of a setting identifier (`static_cast<int>(name)`). -/
def Setting.toIndex : Setting → Nat
  | .kScreenName => 0
  | .kPort => 1
  | .kInterface => 2
  | .kLogLevel => 3
  | .kLogToFile => 4
  | .kLogFilename => 5
  | .kElevateModeLegacy => 8
  | .kElevateMode => 9
  | .kLoadSystemSettings => 19
  | .kServerGroupChecked => 20
  | .kUseInternalConfig => 23
  | .kClientGroupChecked => 24
  | .kEnableService => 37

/-- The key of a setting (`AppConfig::settingName`): the table entry at the setting's index. -/
def settingName (name : Setting) : String :=
  m_SettingsName.getD name.toIndex ""

/-! ## Elevate mode -/

/-- Modelled from the spec: the declaration of `ElevateMode` (ElevateMode.h) is not part of the
source at hand. A scoped enumeration over `int`: `static_cast<int>` is `toInt`, and
`static_cast<ElevateMode>` is the constructor. -/
structure ElevateMode where
  toInt : Int
  deriving DecidableEq, Repr

/-- Modelled from the spec: the always-elevate variant is what the legacy boolean `true`
reinterprets to, so its integer form is `1`. -/
def ElevateMode.kAlways : ElevateMode := ⟨1⟩

/-- Modelled from the spec: the compiled-in default is what the legacy boolean `false`
reinterprets to, so its integer form is `0`. -/
def kDefaultElevateMode : ElevateMode := ⟨0⟩

/-! ## The configuration object -/

/-- The environment dependency (`AppConfig::Deps`): the host-name provider. -/
structure Deps where
  hostname : String

/-- The members of `AppConfig`: the store reference, the dependencies and the cached settings. -/
structure AppConfig where
  m_Scopes : ConfigScopes
  m_pDeps : Deps
  m_ScreenName : String
  m_Port : Int
  m_Interface : String
  m_LogLevel : Int
  m_LogToFile : Bool
  m_LogFilename : String
  m_ElevateMode : ElevateMode
  m_EnableService : Bool
  m_ServerGroupChecked : Bool
  m_UseInternalConfig : Bool
  m_ClientGroupChecked : Bool
  m_LoadFromSystemScope : Bool

namespace AppConfig

/-- `AppConfig::setInCurrentScope`: write to the active scope. -/
def setInCurrentScope (name : Setting) (value : QVariant) (c : AppConfig) : AppConfig :=
  { c with m_Scopes := c.m_Scopes.setInScope (settingName name) value none }

/-- `AppConfig::saveToAllScopes`: write to the User scope, then to the System scope. -/
def saveToAllScopes (name : Setting) (value : QVariant) (c : AppConfig) : AppConfig :=
  let s := c.m_Scopes.setInScope (settingName name) value (some Scope.User)
  let s := s.setInScope (settingName name) value (some Scope.System)
  { c with m_Scopes := s }

/-- `AppConfig::getFromCurrentScope` (the `QVariant` overload). -/
def getFromCurrentScope (name : Setting) (defaultValue : QVariant) (c : AppConfig) : QVariant :=
  c.m_Scopes.getFromScope (settingName name) defaultValue none

/-- `AppConfig::findInAllScopes`. -/
def findInAllScopes (name : Setting) (defaultValue : QVariant) (c : AppConfig) : QVariant :=
  let result := defaultValue
  let setting := settingName name
  if c.m_Scopes.scopeContains setting none then
    c.m_Scopes.getFromScope setting defaultValue none
  else if c.m_Scopes.activeScope = Scope.System then
    if c.m_Scopes.scopeContains setting (some Scope.User) then
      c.m_Scopes.getFromScope setting defaultValue (some Scope.User)
    else result
  else if c.m_Scopes.scopeContains setting (some Scope.System) then
    c.m_Scopes.getFromScope setting defaultValue (some Scope.System)
  else result

/-- `AppConfig::loadScope`. Both enumerators of `Scope` pass the `switch`; its `default` arm
(`qFatal`) has no value of the two-valued `Scope` to run on. -/
def loadScope (scope : Scope) (c : AppConfig) : AppConfig :=
  if c.m_Scopes.activeScope = scope then c
  else
    let s := c.m_Scopes.setActiveScope scope
    if s.scopeContains (settingName Setting.kScreenName) (some s.activeScope) then
      { c with m_Scopes := s.signalReady }
    else
      { c with m_Scopes := s }

/-- `AppConfig::setLoadFromSystemScope`. -/
def setLoadFromSystemScope (value : Bool) (c : AppConfig) : AppConfig :=
  let c := if value then loadScope Scope.System c else loadScope Scope.User c
  { c with m_LoadFromSystemScope := value }

/-- `AppConfig::isActiveScopeWritable`. -/
def isActiveScopeWritable (c : AppConfig) : Bool :=
  c.m_Scopes.isActiveScopeWritable

/-- `AppConfig::determineScope`. -/
def determineScope (c : AppConfig) : AppConfig :=
  if c.m_Scopes.scopeContains (settingName Setting.kLoadSystemSettings) (some Scope.User) then
    let loadFromSystemScope :=
      (c.m_Scopes.getFromScope (settingName Setting.kLoadSystemSettings)
        (QVariant.bool c.m_LoadFromSystemScope) (some Scope.User)).toBool
    setLoadFromSystemScope loadFromSystemScope c
  else if c.m_Scopes.scopeContains (settingName Setting.kScreenName) (some Scope.System) then
    setLoadFromSystemScope true c
  else c

/-- `AppConfig::recallFromAllScopes`. -/
def recallFromAllScopes (c : AppConfig) : AppConfig :=
  { c with m_LoadFromSystemScope :=
      (findInAllScopes Setting.kLoadSystemSettings (QVariant.bool c.m_LoadFromSystemScope) c).toBool }

/-- `AppConfig::recallScreenName`. -/
def recallScreenName (c : AppConfig) : AppConfig :=
  let screenName :=
    QString.trimmed (getFromCurrentScope Setting.kScreenName (QVariant.string c.m_ScreenName) c).toString
  if QString.isEmpty screenName then
    { c with m_ScreenName := c.m_pDeps.hostname }
  else
    { c with m_ScreenName := screenName }

/-- `AppConfig::recallElevateMode`. The one-argument call `getFromCurrentScope(kElevateMode)`
passes a default-constructed (invalid) variant as the default. -/
def recallElevateMode (c : AppConfig) : AppConfig :=
  if !c.m_Scopes.scopeContains (settingName Setting.kElevateMode) none then c
  else
    let elevateMode := getFromCurrentScope Setting.kElevateMode QVariant.invalid c
    let elevateMode :=
      if !elevateMode.isValid then
        getFromCurrentScope Setting.kElevateModeLegacy (QVariant.int kDefaultElevateMode.toInt) c
      else elevateMode
    { c with m_ElevateMode := ElevateMode.mk elevateMode.toInt }

/-- `AppConfig::recallFromCurrentScope`. -/
def recallFromCurrentScope (c : AppConfig) : AppConfig :=
  let c := recallScreenName c
  let c := recallElevateMode c
  let c := { c with m_Port := (getFromCurrentScope Setting.kPort (QVariant.int c.m_Port) c).toInt }
  let c := { c with m_Interface :=
    (getFromCurrentScope Setting.kInterface (QVariant.string c.m_Interface) c).toString }
  let c := { c with m_LogLevel :=
    (getFromCurrentScope Setting.kLogLevel (QVariant.int c.m_LogLevel) c).toInt }
  let c := { c with m_LogToFile :=
    (getFromCurrentScope Setting.kLogToFile (QVariant.bool c.m_LogToFile) c).toBool }
  let c := { c with m_LogFilename :=
    (getFromCurrentScope Setting.kLogFilename (QVariant.string c.m_LogFilename) c).toString }
  let c := { c with m_ServerGroupChecked :=
    (getFromCurrentScope Setting.kServerGroupChecked (QVariant.bool c.m_ServerGroupChecked) c).toBool }
  let c := { c with m_UseInternalConfig :=
    (getFromCurrentScope Setting.kUseInternalConfig (QVariant.bool c.m_UseInternalConfig) c).toBool }
  let c := { c with m_ClientGroupChecked :=
    (getFromCurrentScope Setting.kClientGroupChecked (QVariant.bool c.m_ClientGroupChecked) c).toBool }
  { c with m_EnableService :=
    (getFromCurrentScope Setting.kEnableService (QVariant.bool c.m_EnableService) c).toBool }

/-- `AppConfig::recall` (the bare name is a reserved word here). -/
def recall' (c : AppConfig) : AppConfig :=
  recallFromCurrentScope (recallFromAllScopes c)

/-- `AppConfig::commit`. -/
def commit (c : AppConfig) : AppConfig :=
  let c := saveToAllScopes Setting.kLoadSystemSettings (QVariant.bool c.m_LoadFromSystemScope) c
  let c := saveToAllScopes Setting.kClientGroupChecked (QVariant.bool c.m_ClientGroupChecked) c
  let c := saveToAllScopes Setting.kServerGroupChecked (QVariant.bool c.m_ServerGroupChecked) c
  if isActiveScopeWritable c then
    let c := setInCurrentScope Setting.kScreenName (QVariant.string c.m_ScreenName) c
    let c := setInCurrentScope Setting.kPort (QVariant.int c.m_Port) c
    let c := setInCurrentScope Setting.kInterface (QVariant.string c.m_Interface) c
    let c := setInCurrentScope Setting.kLogLevel (QVariant.int c.m_LogLevel) c
    let c := setInCurrentScope Setting.kLogToFile (QVariant.bool c.m_LogToFile) c
    let c := setInCurrentScope Setting.kLogFilename (QVariant.string c.m_LogFilename) c
    let c := setInCurrentScope Setting.kElevateMode (QVariant.int c.m_ElevateMode.toInt) c
    let c := setInCurrentScope Setting.kElevateModeLegacy
      (QVariant.bool (decide (c.m_ElevateMode = ElevateMode.kAlways))) c
    let c := setInCurrentScope Setting.kUseInternalConfig (QVariant.bool c.m_UseInternalConfig) c
    setInCurrentScope Setting.kEnableService (QVariant.bool c.m_EnableService) c
  else c

/-- The value the active scope stores under a key, if any. -/
def stored (c : AppConfig) (name : String) : Option QVariant :=
  c.m_Scopes.store c.m_Scopes.active name

/-- `AppConfig::setPort`. -/
def setPort (i : Int) (c : AppConfig) : AppConfig :=
  { c with m_Port := i }

/-- `AppConfig::setElevateMode`. -/
def setElevateMode (em : ElevateMode) (c : AppConfig) : AppConfig :=
  { c with m_ElevateMode := em }

/-- `AppConfig::setLogLevel`: the new state, and whether `logLevelChanged` is emitted. -/
def setLogLevel (i : Int) (c : AppConfig) : AppConfig × Bool :=
  let changed := decide (c.m_LogLevel ≠ i)
  ({ c with m_LogLevel := i }, changed)

/-- `AppConfig::logLevel`. -/
def logLevel (c : AppConfig) : Int :=
  c.m_LogLevel

end AppConfig

/-- The names of the log levels (`kLogLevelNames`). -/
def kLogLevelNames : List String := ["INFO", "DEBUG", "DEBUG1", "DEBUG2"]

/-- `AppConfig::logLevelText`: the table entry at index `logLevel()`; an index outside the
table, which the code reads without a check, has no defined result. -/
def AppConfig.logLevelText (c : AppConfig) : Option String :=
  if c.logLevel < 0 then none else kLogLevelNames[c.logLevel.toNat]?

/-- Modelled from the spec: the in-class initialisers of the members of `AppConfig`
(AppConfig.h) are not part of the source at hand; the first-run defaults of all members but
the screen name are taken as a parameter. -/
structure MemberDefaults where
  m_Port : Int
  m_Interface : String
  m_LogLevel : Int
  m_LogToFile : Bool
  m_LogFilename : String
  m_ElevateMode : ElevateMode
  m_EnableService : Bool
  m_ServerGroupChecked : Bool
  m_UseInternalConfig : Bool
  m_ClientGroupChecked : Bool
  m_LoadFromSystemScope : Bool

/-- The members as the constructor `AppConfig::AppConfig` initialises them, before its body
runs: the screen name is the host name, the rest are the first-run defaults. -/
def AppConfig.initial (scopes : ConfigScopes) (deps : Deps) (d : MemberDefaults) : AppConfig :=
  { m_Scopes := scopes, m_pDeps := deps, m_ScreenName := deps.hostname, m_Port := d.m_Port,
    m_Interface := d.m_Interface, m_LogLevel := d.m_LogLevel, m_LogToFile := d.m_LogToFile,
    m_LogFilename := d.m_LogFilename, m_ElevateMode := d.m_ElevateMode,
    m_EnableService := d.m_EnableService, m_ServerGroupChecked := d.m_ServerGroupChecked,
    m_UseInternalConfig := d.m_UseInternalConfig,
    m_ClientGroupChecked := d.m_ClientGroupChecked,
    m_LoadFromSystemScope := d.m_LoadFromSystemScope }

/-- The constructor `AppConfig::AppConfig`: `determineScope()` followed by `recall()`. -/
def AppConfig.ctor (scopes : ConfigScopes) (deps : Deps) (d : MemberDefaults) : AppConfig :=
  AppConfig.recall' (AppConfig.determineScope (AppConfig.initial scopes deps d))

/-- The configuration with the stored values of one scope replaced. -/
def AppConfig.withStore (c : AppConfig) (scope : Scope) (f : String → Option QVariant) :
    AppConfig :=
  match scope with
  | Scope.User => { c with m_Scopes := { c.m_Scopes with user := f } }
  | Scope.System => { c with m_Scopes := { c.m_Scopes with system := f } }

/-- The scope that is not the given one. -/
def Scope.other : Scope → Scope
  | Scope.User => Scope.System
  | Scope.System => Scope.User

/-! ## Fixtures -/

/-- A store with both scopes empty, User active and both scopes writable. -/
def emptyScopes : ConfigScopes :=
  { user := fun _ => none, system := fun _ => none, active := Scope.User,
    writable := fun _ => true, ready := 0 }

/-- A configuration over a given store, with host name `"host"` and plain field values. -/
def sampleConfig (s : ConfigScopes) : AppConfig :=
  { m_Scopes := s, m_pDeps := { hostname := "host" }, m_ScreenName := "host", m_Port := 24800,
    m_Interface := "", m_LogLevel := 0, m_LogToFile := false, m_LogFilename := "deskflow.log",
    m_ElevateMode := kDefaultElevateMode, m_EnableService := true,
    m_ServerGroupChecked := false, m_UseInternalConfig := false,
    m_ClientGroupChecked := false, m_LoadFromSystemScope := false }

/-- A store with both scopes empty and System active. -/
def emptySystemScopes : ConfigScopes :=
  { emptyScopes with active := Scope.System }

/-- System active; User holds `loadFromSystemScope = false`, System holds a screen name. -/
def userOptOutScopes : ConfigScopes :=
  { emptySystemScopes with
    user := fun k => if k = "loadFromSystemScope" then some (QVariant.bool false) else none
    system := fun k => if k = "screenName" then some (QVariant.string "desk") else none }

/-- User active, with no `loadFromSystemScope`; System holds a screen name. -/
def systemInstallScopes : ConfigScopes :=
  { emptyScopes with
    system := fun k => if k = "screenName" then some (QVariant.string "desk") else none }

/-- Both scopes writable and empty, with an in-memory screen name padded by blanks. -/
def paddedNameConfig : AppConfig :=
  { sampleConfig emptyScopes with m_ScreenName := " desk " }

/-- System active and read-only, holding `groupClientChecked = false`. -/
def readOnlySystemScopes : ConfigScopes :=
  { user := fun _ => none
    system := fun k => if k = "groupClientChecked" then some (QVariant.bool false) else none
    active := Scope.System
    writable := fun scope => decide (scope = Scope.User)
    ready := 0 }

/-- A configuration over the read-only System scope whose client group is checked in memory. -/
def readOnlyConfig : AppConfig :=
  { sampleConfig readOnlySystemScopes with m_ClientGroupChecked := true }

/-- User active, holding an all-blank screen name. -/
def blankNameScopes : ConfigScopes :=
  { emptyScopes with
    user := fun k => if k = "screenName" then some (QVariant.string "   ") else none }

/-- Both scopes empty, with the in-memory elevate mode set to always-elevate. -/
def alwaysElevateConfig : AppConfig :=
  { sampleConfig emptyScopes with m_ElevateMode := ElevateMode.kAlways }

/-- User active, holding an invalid canonical elevate mode and the legacy boolean `true`. -/
def staleElevateScopes : ConfigScopes :=
  { emptyScopes with
    user := fun k =>
      if k = "elevateModeEnum" then some QVariant.invalid
      else if k = "elevateMode" then some (QVariant.bool true)
      else none }

/-- First-run defaults used in the examples. -/
def sampleDefaults : MemberDefaults :=
  { m_Port := 24800, m_Interface := "", m_LogLevel := 0, m_LogToFile := false,
    m_LogFilename := "deskflow.log", m_ElevateMode := kDefaultElevateMode,
    m_EnableService := true, m_ServerGroupChecked := false, m_UseInternalConfig := false,
    m_ClientGroupChecked := false, m_LoadFromSystemScope := false }

/-- User active; User holds `loadFromSystemScope = true`, System holds it as `false`. -/
def conflictingFlagScopes : ConfigScopes :=
  { emptyScopes with
    user := fun k => if k = "loadFromSystemScope" then some (QVariant.bool true) else none
    system := fun k => if k = "loadFromSystemScope" then some (QVariant.bool false) else none }

/-- Some content for a scope that is not active: a port. -/
def otherScopeNoise : String → Option QVariant :=
  fun k => if k = "port" then some (QVariant.int 1) else none

/-- Built over empty stores, then `setPort 5`. -/
def portChangedConfig : AppConfig :=
  AppConfig.setPort 5 (AppConfig.ctor emptyScopes { hostname := "host" } sampleDefaults)

/-- Both scopes writable and empty; port, log level, elevate mode and screen name changed
from their first-run values. -/
def tunedConfig : AppConfig :=
  { sampleConfig emptyScopes with
    m_ScreenName := "desk"
    m_Port := 24802
    m_LogLevel := 2
    m_ElevateMode := ElevateMode.kAlways }

/-! ## Key names -/

@[simp] theorem settingName_kScreenName : settingName Setting.kScreenName = "screenName" := rfl
@[simp] theorem settingName_kPort : settingName Setting.kPort = "port" := rfl
@[simp] theorem settingName_kInterface : settingName Setting.kInterface = "interface" := rfl
@[simp] theorem settingName_kLogLevel : settingName Setting.kLogLevel = "logLevel2" := rfl
@[simp] theorem settingName_kLogToFile : settingName Setting.kLogToFile = "logToFile" := rfl
@[simp] theorem settingName_kLogFilename : settingName Setting.kLogFilename = "logFilename" := rfl
@[simp] theorem settingName_kElevateModeLegacy :
    settingName Setting.kElevateModeLegacy = "elevateMode" := rfl
@[simp] theorem settingName_kElevateMode :
    settingName Setting.kElevateMode = "elevateModeEnum" := rfl
@[simp] theorem settingName_kLoadSystemSettings :
    settingName Setting.kLoadSystemSettings = "loadFromSystemScope" := rfl
@[simp] theorem settingName_kServerGroupChecked :
    settingName Setting.kServerGroupChecked = "groupServerChecked" := rfl
@[simp] theorem settingName_kUseInternalConfig :
    settingName Setting.kUseInternalConfig = "useInternalConfig" := rfl
@[simp] theorem settingName_kClientGroupChecked :
    settingName Setting.kClientGroupChecked = "groupClientChecked" := rfl
@[simp] theorem settingName_kEnableService :
    settingName Setting.kEnableService = "enableService" := rfl

/-! ## Merge-read across scopes -/

open AppConfig

/-- C1. `findInAllScopes` returns the active scope's stored value when the active scope holds
the key; otherwise the other scope's stored value when that scope holds the key; otherwise
the supplied default. -/
theorem findInAllScopes_fallback (name : Setting) (defaultValue : QVariant) (c : AppConfig) :
    findInAllScopes name defaultValue c =
      match c.m_Scopes.store c.m_Scopes.active (settingName name) with
      | some v => v
      | none =>
        match c.m_Scopes.store c.m_Scopes.active.other (settingName name) with
        | some v => v
        | none => defaultValue := by
  obtain ⟨⟨user, system, active, writable, ready⟩, _⟩ := c
  cases active <;>
    simp only [findInAllScopes, ConfigScopes.scopeContains, ConfigScopes.getFromScope,
      ConfigScopes.resolve, ConfigScopes.activeScope, ConfigScopes.store, Scope.other] <;>
    cases user (settingName name) <;> cases system (settingName name) <;> simp

/-! ## Scope resolution at startup -/

/-- The active scope and the flag after `setLoadFromSystemScope`. -/
theorem setLoadFromSystemScope_active (value : Bool) (c : AppConfig) :
    (setLoadFromSystemScope value c).m_Scopes.active
        = (if value then Scope.System else Scope.User) ∧
      (setLoadFromSystemScope value c).m_LoadFromSystemScope = value := by
  obtain ⟨⟨user, system, active, writable, ready⟩, _⟩ := c
  cases value <;> cases active <;>
    simp [setLoadFromSystemScope, loadScope, ConfigScopes.activeScope,
      ConfigScopes.setActiveScope, ConfigScopes.signalReady] <;>
    split <;> rfl

/-- First branch of `determineScope`: the User store holds the preference. -/
theorem determineScope_of_user_value (c : AppConfig) (v : QVariant)
    (h : c.m_Scopes.user "loadFromSystemScope" = some v) :
    determineScope c = setLoadFromSystemScope v.toBool c := by
  simp [determineScope, ConfigScopes.scopeContains, ConfigScopes.getFromScope,
    ConfigScopes.resolve, ConfigScopes.store, h]

/-- Second branch of `determineScope`: no preference, but System holds a screen name. -/
theorem determineScope_of_system_name (c : AppConfig)
    (hUser : c.m_Scopes.user "loadFromSystemScope" = none)
    (hSystem : (c.m_Scopes.system "screenName").isSome = true) :
    determineScope c = setLoadFromSystemScope true c := by
  simp [determineScope, ConfigScopes.scopeContains, ConfigScopes.resolve,
    ConfigScopes.store, hUser, hSystem]

/-- C2. If the User store holds `loadFromSystemScope`, then after `determineScope` the active
scope is System when the stored value reads as true and User when it reads as false, and the
in-memory flag equals that boolean, whatever the System store holds and whichever scope was
active before. -/
theorem determineScope_user_preference (c : AppConfig) (v : QVariant)
    (h : c.m_Scopes.user "loadFromSystemScope" = some v) :
    (determineScope c).m_Scopes.active = (if v.toBool then Scope.System else Scope.User) ∧
      (determineScope c).m_LoadFromSystemScope = v.toBool := by
  rw [determineScope_of_user_value c v h]
  exact setLoadFromSystemScope_active v.toBool c

/-- C2 at a concrete store: System active, System holds a screen name, User holds
`loadFromSystemScope = false`; the resolved scope is User. -/
theorem determineScope_user_preference_witness :
    userOptOutScopes.user "loadFromSystemScope" = some (QVariant.bool false) ∧
      (determineScope (sampleConfig userOptOutScopes)).m_Scopes.active = Scope.User ∧
      (determineScope (sampleConfig userOptOutScopes)).m_LoadFromSystemScope = false :=
  ⟨rfl, determineScope_user_preference (sampleConfig userOptOutScopes) (QVariant.bool false) rfl⟩

/-- C3. If the User store lacks `loadFromSystemScope` and the System store holds `screenName`,
then after `determineScope` the active scope is System, whichever scope was active before. -/
theorem determineScope_system_install (c : AppConfig)
    (hUser : c.m_Scopes.user "loadFromSystemScope" = none)
    (hSystem : (c.m_Scopes.system "screenName").isSome = true) :
    (determineScope c).m_Scopes.active = Scope.System := by
  rw [determineScope_of_system_name c hUser hSystem]
  exact (setLoadFromSystemScope_active true c).1

/-- C3 at a concrete store: User active and empty, System holds a screen name. -/
theorem determineScope_system_install_witness :
    systemInstallScopes.user "loadFromSystemScope" = none ∧
      (systemInstallScopes.system "screenName").isSome = true ∧
      (determineScope (sampleConfig systemInstallScopes)).m_Scopes.active = Scope.System :=
  ⟨rfl, rfl, determineScope_system_install (sampleConfig systemInstallScopes) rfl rfl⟩

/-- C4, as stated, fails: with both stores empty neither resolution condition holds, yet a
store that had System active before the call still has System active after it. -/
theorem determineScope_neither_counterexample :
    (∀ v, (sampleConfig emptySystemScopes).m_Scopes.user "loadFromSystemScope" = some v →
        v.toBool = false) ∧
      ¬ ((sampleConfig emptySystemScopes).m_Scopes.user "loadFromSystemScope" = none ∧
        ((sampleConfig emptySystemScopes).m_Scopes.system "screenName").isSome = true) ∧
      (determineScope (sampleConfig emptySystemScopes)).m_Scopes.active = Scope.System ∧
      (determineScope (sampleConfig emptySystemScopes)).m_Scopes.active ≠ Scope.User := by
  refine ⟨?_, ?_, rfl, by decide⟩
  · intro v hv
    have hv2 : (none : Option QVariant) = some v := hv
    cases hv2
  · intro hn
    have hn2 : (none : Option QVariant).isSome = true := hn.2
    cases hn2

/-- C4, amended. If neither resolution condition holds, then after `determineScope` the active
scope is User when the User store holds `loadFromSystemScope` or when User was active before
the call; when the User store lacks the key, `determineScope` changes nothing, so the active
scope stays what it was. -/
theorem determineScope_neither (c : AppConfig)
    (hNotTrue : ∀ v, c.m_Scopes.user "loadFromSystemScope" = some v → v.toBool = false)
    (hNotInstall : ¬ (c.m_Scopes.user "loadFromSystemScope" = none ∧
      (c.m_Scopes.system "screenName").isSome = true)) :
    ((c.m_Scopes.user "loadFromSystemScope").isSome = true ∨ c.m_Scopes.active = Scope.User →
        (determineScope c).m_Scopes.active = Scope.User) ∧
      (c.m_Scopes.user "loadFromSystemScope" = none → determineScope c = c) := by
  have hNone : c.m_Scopes.user "loadFromSystemScope" = none → determineScope c = c := by
    intro hu
    have hs : c.m_Scopes.system "screenName" = none := by
      cases hsys : c.m_Scopes.system "screenName" with
      | none => rfl
      | some w => exact absurd ⟨hu, by simp [hsys]⟩ hNotInstall
    simp [determineScope, ConfigScopes.scopeContains, ConfigScopes.resolve,
      ConfigScopes.store, hu, hs]
  refine ⟨?_, hNone⟩
  intro hor
  cases hu : c.m_Scopes.user "loadFromSystemScope" with
  | none =>
    rw [hNone hu]
    rcases hor with hsome | hact
    · simp [hu] at hsome
    · exact hact
  | some v =>
    rw [determineScope_of_user_value c v hu, hNotTrue v hu]
    exact (setLoadFromSystemScope_active false c).1

/-- C4 amended, at a concrete store: System active, User holds `loadFromSystemScope = false`
and System holds a screen name; the resolved scope is User. -/
theorem determineScope_neither_witness :
    (userOptOutScopes.user "loadFromSystemScope").isSome = true ∧
      (determineScope (sampleConfig userOptOutScopes)).m_Scopes.active = Scope.User :=
  ⟨rfl, (determineScope_neither (sampleConfig userOptOutScopes)
    (fun v hv => by
      have hv2 : some (QVariant.bool false) = some v := hv
      cases hv2
      rfl)
    (fun hn => by
      have hn2 : some (QVariant.bool false) = (none : Option QVariant) := hn.1
      cases hn2)).1 (Or.inl rfl)⟩

/-! ## Recall and commit in terms of stored values -/

theorem QString.isEmpty_iff (s : String) : QString.isEmpty s = true ↔ s = "" := by
  obtain ⟨l⟩ := s
  cases l with
  | nil => simp [QString.isEmpty]
  | cons a t =>
    simp only [QString.isEmpty, List.isEmpty_cons, Bool.false_eq_true, false_iff]
    intro h
    have hd : (a :: t) = [] := congrArg String.data h
    cases hd

theorem getFromCurrentScope_eq (name : Setting) (d : QVariant) (c : AppConfig) :
    getFromCurrentScope name d c = (c.stored (settingName name)).getD d := rfl

theorem scopeContains_active (name : String) (c : AppConfig) :
    c.m_Scopes.scopeContains name none = (c.stored name).isSome := rfl

theorem recallScreenName_eq (c : AppConfig) :
    recallScreenName c =
      { c with
        m_ScreenName :=
          if QString.trimmed
              ((c.stored "screenName").getD (QVariant.string c.m_ScreenName)).toString = ""
          then c.m_pDeps.hostname
          else QString.trimmed
              ((c.stored "screenName").getD (QVariant.string c.m_ScreenName)).toString } := by
  unfold recallScreenName
  simp only [getFromCurrentScope_eq, settingName_kScreenName]
  by_cases h : QString.trimmed
      ((c.stored "screenName").getD (QVariant.string c.m_ScreenName)).toString = ""
  · simp [h, (QString.isEmpty_iff _).mpr]
  · have h2 : QString.isEmpty (QString.trimmed
        ((c.stored "screenName").getD (QVariant.string c.m_ScreenName)).toString) = false := by
      cases hb : QString.isEmpty (QString.trimmed
        ((c.stored "screenName").getD (QVariant.string c.m_ScreenName)).toString)
      · rfl
      · exact absurd ((QString.isEmpty_iff _).mp hb) h
    simp [h, h2]

theorem recallElevateMode_eq (c : AppConfig) :
    recallElevateMode c =
      { c with
        m_ElevateMode :=
          match c.stored "elevateModeEnum" with
          | none => c.m_ElevateMode
          | some v =>
            if v.isValid = true then ElevateMode.mk v.toInt
            else ElevateMode.mk
              ((c.stored "elevateMode").getD (QVariant.int kDefaultElevateMode.toInt)).toInt } := by
  unfold recallElevateMode
  simp only [getFromCurrentScope_eq, scopeContains_active, settingName_kElevateMode,
    settingName_kElevateModeLegacy]
  cases h : c.stored "elevateModeEnum" with
  | none => simp
  | some v => cases hv : v.isValid <;> simp [hv]


theorem recall_eq (c : AppConfig) :
    recall' c =
      { m_Scopes := c.m_Scopes
        m_pDeps := c.m_pDeps
        m_ScreenName :=
          if QString.trimmed
              ((c.stored "screenName").getD (QVariant.string c.m_ScreenName)).toString = ""
          then c.m_pDeps.hostname
          else QString.trimmed
              ((c.stored "screenName").getD (QVariant.string c.m_ScreenName)).toString
        m_Port := ((c.stored "port").getD (QVariant.int c.m_Port)).toInt
        m_Interface := ((c.stored "interface").getD (QVariant.string c.m_Interface)).toString
        m_LogLevel := ((c.stored "logLevel2").getD (QVariant.int c.m_LogLevel)).toInt
        m_LogToFile := ((c.stored "logToFile").getD (QVariant.bool c.m_LogToFile)).toBool
        m_LogFilename :=
          ((c.stored "logFilename").getD (QVariant.string c.m_LogFilename)).toString
        m_ElevateMode :=
          match c.stored "elevateModeEnum" with
          | none => c.m_ElevateMode
          | some v =>
            if v.isValid = true then ElevateMode.mk v.toInt
            else ElevateMode.mk
              ((c.stored "elevateMode").getD (QVariant.int kDefaultElevateMode.toInt)).toInt
        m_EnableService :=
          ((c.stored "enableService").getD (QVariant.bool c.m_EnableService)).toBool
        m_ServerGroupChecked :=
          ((c.stored "groupServerChecked").getD (QVariant.bool c.m_ServerGroupChecked)).toBool
        m_UseInternalConfig :=
          ((c.stored "useInternalConfig").getD (QVariant.bool c.m_UseInternalConfig)).toBool
        m_ClientGroupChecked :=
          ((c.stored "groupClientChecked").getD (QVariant.bool c.m_ClientGroupChecked)).toBool
        m_LoadFromSystemScope :=
          (findInAllScopes Setting.kLoadSystemSettings
            (QVariant.bool c.m_LoadFromSystemScope) c).toBool } := by
  unfold recall' recallFromCurrentScope recallFromAllScopes
  simp only [recallScreenName_eq, recallElevateMode_eq, getFromCurrentScope_eq,
    settingName_kPort, settingName_kInterface, settingName_kLogLevel, settingName_kLogToFile,
    settingName_kLogFilename, settingName_kServerGroupChecked, settingName_kUseInternalConfig,
    settingName_kClientGroupChecked, settingName_kEnableService]
  rfl

theorem store_setInScope (s : ConfigScopes) (name : String) (value : QVariant)
    (scope : Option Scope) (sc : Scope) (k : String) :
    (s.setInScope name value scope).store sc k =
      if sc = s.resolve scope ∧ k = name then some value else s.store sc k := by
  unfold ConfigScopes.setInScope
  cases hr : s.resolve scope <;> cases sc <;> simp [ConfigScopes.store]

theorem active_setInScope (s : ConfigScopes) (name : String) (value : QVariant)
    (scope : Option Scope) : (s.setInScope name value scope).active = s.active := by
  unfold ConfigScopes.setInScope
  cases s.resolve scope <;> rfl

theorem writable_setInScope (s : ConfigScopes) (name : String) (value : QVariant)
    (scope : Option Scope) : (s.setInScope name value scope).writable = s.writable := by
  unfold ConfigScopes.setInScope
  cases s.resolve scope <;> rfl

theorem ready_setInScope (s : ConfigScopes) (name : String) (value : QVariant)
    (scope : Option Scope) : (s.setInScope name value scope).ready = s.ready := by
  unfold ConfigScopes.setInScope
  cases s.resolve scope <;> rfl

theorem commit_memory (c : AppConfig) : commit c = { c with m_Scopes := (commit c).m_Scopes } := by
  obtain ⟨⟨user, system, active, writable, ready⟩, deps, sn, port, itf, ll, ltf, lfn, em, es,
    sgc, uic, cgc, lfss⟩ := c
  simp only [commit, saveToAllScopes, setInCurrentScope]
  split <;> rfl

theorem commit_scopes (c : AppConfig) :
    (commit c).m_Scopes.active = c.m_Scopes.active ∧
      (commit c).m_Scopes.writable = c.m_Scopes.writable ∧
      (commit c).m_Scopes.ready = c.m_Scopes.ready := by
  obtain ⟨⟨user, system, active, writable, ready⟩, deps, sn, port, itf, ll, ltf, lfn, em, es,
    sgc, uic, cgc, lfss⟩ := c
  simp only [commit, saveToAllScopes, setInCurrentScope]
  split <;> simp only [active_setInScope, writable_setInScope, ready_setInScope, and_self]

theorem commit_store_writable (c : AppConfig) (hw : isActiveScopeWritable c = true)
    (sc : Scope) (k : String) :
    (commit c).m_Scopes.store sc k =
      if sc = c.m_Scopes.active ∧ k = "enableService" then
        some (QVariant.bool c.m_EnableService)
      else if sc = c.m_Scopes.active ∧ k = "useInternalConfig" then
        some (QVariant.bool c.m_UseInternalConfig)
      else if sc = c.m_Scopes.active ∧ k = "elevateMode" then
        some (QVariant.bool (decide (c.m_ElevateMode = ElevateMode.kAlways)))
      else if sc = c.m_Scopes.active ∧ k = "elevateModeEnum" then
        some (QVariant.int c.m_ElevateMode.toInt)
      else if sc = c.m_Scopes.active ∧ k = "logFilename" then
        some (QVariant.string c.m_LogFilename)
      else if sc = c.m_Scopes.active ∧ k = "logToFile" then
        some (QVariant.bool c.m_LogToFile)
      else if sc = c.m_Scopes.active ∧ k = "logLevel2" then
        some (QVariant.int c.m_LogLevel)
      else if sc = c.m_Scopes.active ∧ k = "interface" then
        some (QVariant.string c.m_Interface)
      else if sc = c.m_Scopes.active ∧ k = "port" then
        some (QVariant.int c.m_Port)
      else if sc = c.m_Scopes.active ∧ k = "screenName" then
        some (QVariant.string c.m_ScreenName)
      else if k = "groupServerChecked" then
        some (QVariant.bool c.m_ServerGroupChecked)
      else if k = "groupClientChecked" then
        some (QVariant.bool c.m_ClientGroupChecked)
      else if k = "loadFromSystemScope" then
        some (QVariant.bool c.m_LoadFromSystemScope)
      else c.m_Scopes.store sc k := by
  obtain ⟨⟨user, system, active, writable, ready⟩, deps, sn, port, itf, ll, ltf, lfn, em, es,
    sgc, uic, cgc, lfss⟩ := c
  have hw2 : writable active = true := hw
  simp only [commit, saveToAllScopes, setInCurrentScope, isActiveScopeWritable,
    ConfigScopes.isActiveScopeWritable, ConfigScopes.activeScope, active_setInScope,
    writable_setInScope, hw2, if_true, store_setInScope, ConfigScopes.resolve,
    settingName_kScreenName, settingName_kPort, settingName_kInterface, settingName_kLogLevel,
    settingName_kLogToFile, settingName_kLogFilename, settingName_kElevateModeLegacy,
    settingName_kElevateMode, settingName_kLoadSystemSettings, settingName_kServerGroupChecked,
    settingName_kUseInternalConfig, settingName_kClientGroupChecked, settingName_kEnableService]
  cases sc <;> simp [ConfigScopes.store]

theorem commit_stored_writable (c : AppConfig) (hw : isActiveScopeWritable c = true)
    (k : String) :
    (commit c).stored k =
      if k = "enableService" then some (QVariant.bool c.m_EnableService)
      else if k = "useInternalConfig" then some (QVariant.bool c.m_UseInternalConfig)
      else if k = "elevateMode" then
        some (QVariant.bool (decide (c.m_ElevateMode = ElevateMode.kAlways)))
      else if k = "elevateModeEnum" then some (QVariant.int c.m_ElevateMode.toInt)
      else if k = "logFilename" then some (QVariant.string c.m_LogFilename)
      else if k = "logToFile" then some (QVariant.bool c.m_LogToFile)
      else if k = "logLevel2" then some (QVariant.int c.m_LogLevel)
      else if k = "interface" then some (QVariant.string c.m_Interface)
      else if k = "port" then some (QVariant.int c.m_Port)
      else if k = "screenName" then some (QVariant.string c.m_ScreenName)
      else if k = "groupServerChecked" then some (QVariant.bool c.m_ServerGroupChecked)
      else if k = "groupClientChecked" then some (QVariant.bool c.m_ClientGroupChecked)
      else if k = "loadFromSystemScope" then some (QVariant.bool c.m_LoadFromSystemScope)
      else c.stored k := by
  unfold AppConfig.stored
  rw [(commit_scopes c).1, commit_store_writable c hw]
  simp only [true_and]

theorem findInAllScopes_of_stored (name : Setting) (d v : QVariant) (c : AppConfig)
    (h : c.stored (settingName name) = some v) : findInAllScopes name d c = v := by
  have h2 : c.m_Scopes.store c.m_Scopes.active (settingName name) = some v := h
  simp [findInAllScopes, ConfigScopes.scopeContains, ConfigScopes.getFromScope,
    ConfigScopes.resolve, ConfigScopes.activeScope, h2]

theorem commit_store_readonly (c : AppConfig) (hw : isActiveScopeWritable c = false)
    (sc : Scope) (k : String) :
    (commit c).m_Scopes.store sc k =
      if k = "groupServerChecked" then some (QVariant.bool c.m_ServerGroupChecked)
      else if k = "groupClientChecked" then some (QVariant.bool c.m_ClientGroupChecked)
      else if k = "loadFromSystemScope" then some (QVariant.bool c.m_LoadFromSystemScope)
      else c.m_Scopes.store sc k := by
  obtain ⟨⟨user, system, active, writable, ready⟩, deps, sn, port, itf, ll, ltf, lfn, em, es,
    sgc, uic, cgc, lfss⟩ := c
  have hw2 : writable active = false := hw
  simp only [commit, saveToAllScopes, isActiveScopeWritable,
    ConfigScopes.isActiveScopeWritable, ConfigScopes.activeScope, active_setInScope,
    writable_setInScope, hw2, Bool.false_eq_true, if_false, store_setInScope,
    ConfigScopes.resolve, settingName_kLoadSystemSettings, settingName_kServerGroupChecked,
    settingName_kClientGroupChecked]
  cases sc <;> simp [ConfigScopes.store]

/-! ## Commit then recall -/

/-- C5, as stated, fails: with a writable active scope and the in-memory screen name
`" desk "`, commit followed by recall gives the screen name `"desk"`. -/
theorem commit_recall_roundtrip_counterexample :
    isActiveScopeWritable paddedNameConfig = true ∧
      paddedNameConfig.m_ScreenName = " desk " ∧
      (recall' (commit paddedNameConfig)).m_ScreenName = "desk" ∧
      (recall' (commit paddedNameConfig)).m_ScreenName ≠ paddedNameConfig.m_ScreenName :=
  ⟨rfl, rfl, rfl, by decide⟩

/-- C5, amended. With a writable active scope, commit followed by recall on the same
stores, run by the committing object or by any fresh object over those stores whatever its
own fields hold, reproduces port, network interface, log level, log-to-file, log filename,
elevate mode, enable-service, use-internal-config, both group-checked flags and the
load-from-system-scope flag exactly. The screen name comes back trimmed, or as the recalling
object's host name when it is blank; so it is reproduced exactly if and only if it is
non-empty with no leading or trailing whitespace, or it is blank and equal to that host
name. -/
theorem commit_recall_roundtrip (c fresh : AppConfig) (hw : isActiveScopeWritable c = true)
    (hsame : fresh.m_Scopes = (commit c).m_Scopes) :
    (recall' fresh).m_ScreenName
        = (if QString.trimmed c.m_ScreenName = "" then fresh.m_pDeps.hostname
            else QString.trimmed c.m_ScreenName) ∧
      ((recall' fresh).m_ScreenName = c.m_ScreenName ↔
        (QString.trimmed c.m_ScreenName = c.m_ScreenName ∧ c.m_ScreenName ≠ "") ∨
          (QString.trimmed c.m_ScreenName = "" ∧ fresh.m_pDeps.hostname = c.m_ScreenName)) ∧
      (QString.trimmed c.m_ScreenName = c.m_ScreenName → c.m_ScreenName ≠ "" →
        (recall' fresh).m_ScreenName = c.m_ScreenName) ∧
      (recall' fresh).m_Port = c.m_Port ∧
      (recall' fresh).m_Interface = c.m_Interface ∧
      (recall' fresh).m_LogLevel = c.m_LogLevel ∧
      (recall' fresh).m_LogToFile = c.m_LogToFile ∧
      (recall' fresh).m_LogFilename = c.m_LogFilename ∧
      (recall' fresh).m_ElevateMode = c.m_ElevateMode ∧
      (recall' fresh).m_EnableService = c.m_EnableService ∧
      (recall' fresh).m_UseInternalConfig = c.m_UseInternalConfig ∧
      (recall' fresh).m_ServerGroupChecked = c.m_ServerGroupChecked ∧
      (recall' fresh).m_ClientGroupChecked = c.m_ClientGroupChecked ∧
      (recall' fresh).m_LoadFromSystemScope = c.m_LoadFromSystemScope := by
  have hst : ∀ k, fresh.stored k = (commit c).stored k := by
    intro k
    unfold AppConfig.stored
    rw [hsame]
  have hs : ∀ k, fresh.stored k = _ := fun k => (hst k).trans (commit_stored_writable c hw k)
  have hflag : findInAllScopes Setting.kLoadSystemSettings
      (QVariant.bool fresh.m_LoadFromSystemScope) fresh
        = QVariant.bool c.m_LoadFromSystemScope :=
    findInAllScopes_of_stored _ _ _ _ (by rw [hs]; rfl)
  have hname : (recall' fresh).m_ScreenName
        = (if QString.trimmed c.m_ScreenName = "" then fresh.m_pDeps.hostname
            else QString.trimmed c.m_ScreenName) := by
    rw [recall_eq fresh]
    simp [hs, QVariant.toString]
  refine ⟨hname, ?_, ?_, ?_, ?_, ?_, ?_, ?_, ?_, ?_, ?_, ?_, ?_, ?_⟩
  · rw [hname]
    by_cases ht : QString.trimmed c.m_ScreenName = ""
    · rw [if_pos ht]
      constructor
      · intro hh
        exact Or.inr ⟨ht, hh⟩
      · rintro (⟨h1, h2⟩ | ⟨_, h2⟩)
        · exact absurd (h1.symm.trans ht) h2
        · exact h2
    · rw [if_neg ht]
      constructor
      · intro hh
        exact Or.inl ⟨hh, fun he => ht (hh.trans he)⟩
      · rintro (⟨h1, _⟩ | ⟨h1, _⟩)
        · exact h1
        · exact absurd h1 ht
  · intro ht hne
    rw [hname, ht, if_neg hne]
  all_goals rw [recall_eq fresh]
  all_goals simp [hs, hflag, QVariant.toString, QVariant.toInt, QVariant.toBool,
    QVariant.isValid]

/-- C5 amended, at concrete configurations: port 24802, log level 2, always-elevate and the
screen name `"desk"` are committed to a writable User scope; a fresh object with first-run
fields over the same stores recalls them, and so does the committing object itself. -/
theorem commit_recall_roundtrip_witness :
    isActiveScopeWritable tunedConfig = true ∧
      ((sampleConfig (commit tunedConfig).m_Scopes).m_Port = 24800 ∧
        (recall' (sampleConfig (commit tunedConfig).m_Scopes)).m_Port = 24802 ∧
        (recall' (sampleConfig (commit tunedConfig).m_Scopes)).m_ElevateMode
          = ElevateMode.kAlways ∧
        (recall' (sampleConfig (commit tunedConfig).m_Scopes)).m_ScreenName = "desk") ∧
      (recall' (commit tunedConfig)).m_LogLevel = 2 :=
  ⟨rfl,
    ⟨rfl,
      (commit_recall_roundtrip tunedConfig (sampleConfig (commit tunedConfig).m_Scopes)
        rfl rfl).2.2.2.1,
      (commit_recall_roundtrip tunedConfig (sampleConfig (commit tunedConfig).m_Scopes)
        rfl rfl).2.2.2.2.2.2.2.2.1,
      (commit_recall_roundtrip tunedConfig (sampleConfig (commit tunedConfig).m_Scopes)
        rfl rfl).2.2.1 (by decide) (by decide)⟩,
    (commit_recall_roundtrip tunedConfig (commit tunedConfig) rfl rfl).2.2.2.2.2.1⟩

/-- C6, as stated, fails: with the active System scope read-only, `groupClientChecked` is a
key other than `loadFromSystemScope`, read back from the active scope only, and commit
still overwrites its stored value `false` with the in-memory `true`. -/
theorem commit_readonly_counterexample :
    isActiveScopeWritable readOnlyConfig = false ∧
      readOnlyConfig.stored "groupClientChecked" = some (QVariant.bool false) ∧
      (commit readOnlyConfig).stored "groupClientChecked" = some (QVariant.bool true) ∧
      (commit readOnlyConfig).stored "groupClientChecked"
        ≠ readOnlyConfig.stored "groupClientChecked" :=
  ⟨rfl, rfl, rfl, by decide⟩

/-- C6, amended. When the active scope is not writable, commit still writes
`loadFromSystemScope`, and also `groupClientChecked` and `groupServerChecked`, with their
in-memory values to both the User and the System store, and leaves the stored value of every
other key, in both scopes, exactly as it was before the call. -/
theorem commit_readonly (c : AppConfig) (hw : isActiveScopeWritable c = false) :
    (∀ sc, (commit c).m_Scopes.store sc "loadFromSystemScope"
        = some (QVariant.bool c.m_LoadFromSystemScope)) ∧
      (∀ sc, (commit c).m_Scopes.store sc "groupClientChecked"
        = some (QVariant.bool c.m_ClientGroupChecked)) ∧
      (∀ sc, (commit c).m_Scopes.store sc "groupServerChecked"
        = some (QVariant.bool c.m_ServerGroupChecked)) ∧
      (∀ sc k, k ≠ "loadFromSystemScope" → k ≠ "groupClientChecked" →
        k ≠ "groupServerChecked" →
        (commit c).m_Scopes.store sc k = c.m_Scopes.store sc k) := by
  refine ⟨?_, ?_, ?_, ?_⟩
  · intro sc
    rw [commit_store_readonly c hw]
    simp
  · intro sc
    rw [commit_store_readonly c hw]
    simp
  · intro sc
    rw [commit_store_readonly c hw]
    simp
  · intro sc k h1 h2 h3
    rw [commit_store_readonly c hw]
    simp [h1, h2, h3]

/-- C6 amended, at the read-only System configuration: the flag reaches both stores and the
stored screen name of the active scope is untouched. -/
theorem commit_readonly_witness :
    isActiveScopeWritable readOnlyConfig = false ∧
      (commit readOnlyConfig).m_Scopes.store Scope.User "loadFromSystemScope"
        = some (QVariant.bool false) ∧
      (commit readOnlyConfig).m_Scopes.store Scope.System "screenName"
        = readOnlyConfig.m_Scopes.store Scope.System "screenName" :=
  ⟨rfl, (commit_readonly readOnlyConfig rfl).1 Scope.User,
    (commit_readonly readOnlyConfig rfl).2.2.2 Scope.System "screenName"
      (by decide) (by decide) (by decide)⟩

/-! ## Screen-name recall -/

/-- C7. When the active scope stores a value under `screenName`: if that value is empty
after trimming, `recallScreenName` sets the screen name to the host name supplied by the
dependency; if it is non-empty after trimming, the screen name becomes the trimmed stored
value. -/
theorem recallScreenName_stored (c : AppConfig) (v : QVariant)
    (h : c.stored "screenName" = some v) :
    (QString.trimmed v.toString = "" →
        (recallScreenName c).m_ScreenName = c.m_pDeps.hostname) ∧
      (QString.trimmed v.toString ≠ "" →
        (recallScreenName c).m_ScreenName = QString.trimmed v.toString) := by
  rw [recallScreenName_eq, h]
  constructor
  · intro ht
    simp [ht]
  · intro ht
    simp [ht]

/-- C7 at a concrete store: the stored screen name `"   "` yields the host name `"host"`. -/
theorem recallScreenName_stored_witness :
    (sampleConfig blankNameScopes).stored "screenName" = some (QVariant.string "   ") ∧
      (recallScreenName (sampleConfig blankNameScopes)).m_ScreenName = "host" :=
  ⟨rfl, (recallScreenName_stored (sampleConfig blankNameScopes) (QVariant.string "   ") rfl).1
    (by decide)⟩

/-! ## Elevate-mode recall -/

/-- C8, as stated, fails: with no canonical elevate-mode key stored and the in-memory mode
set to always-elevate, `recallElevateMode` leaves always-elevate in place, which is not the
compiled-in default. -/
theorem recallElevateMode_absent_counterexample :
    alwaysElevateConfig.stored "elevateModeEnum" = none ∧
      (recallElevateMode alwaysElevateConfig).m_ElevateMode = ElevateMode.kAlways ∧
      (recallElevateMode alwaysElevateConfig).m_ElevateMode ≠ kDefaultElevateMode :=
  ⟨rfl, rfl, by decide⟩

/-- C8, amended. If the active scope has no stored value for the canonical elevate-mode key,
`recallElevateMode` changes nothing: the elevate mode stays what it was in memory (so it is
the compiled-in default exactly when it was the default before), and the result does not
depend on the legacy boolean key. -/
theorem recallElevateMode_absent (c : AppConfig) (h : c.stored "elevateModeEnum" = none) :
    recallElevateMode c = c ∧
      (c.m_ElevateMode = kDefaultElevateMode →
        (recallElevateMode c).m_ElevateMode = kDefaultElevateMode) ∧
      (∀ legacy, (recallElevateMode
        (setInCurrentScope Setting.kElevateModeLegacy legacy c)).m_ElevateMode
          = c.m_ElevateMode) := by
  have hsame : recallElevateMode c = c := by
    rw [recallElevateMode_eq, h]
  refine ⟨hsame, ?_, ?_⟩
  · intro hd
    rw [hsame, hd]
  · intro legacy
    have hl : (setInCurrentScope Setting.kElevateModeLegacy legacy c).stored "elevateModeEnum"
        = none := by
      have h2 : c.m_Scopes.store c.m_Scopes.active "elevateModeEnum" = none := h
      simp [AppConfig.stored, setInCurrentScope, store_setInScope, active_setInScope, h2]
    rw [recallElevateMode_eq, hl]
    rfl

/-- C8 amended, at a concrete configuration: both scopes empty, mode at its default. -/
theorem recallElevateMode_absent_witness :
    (sampleConfig emptyScopes).stored "elevateModeEnum" = none ∧
      (recallElevateMode (sampleConfig emptyScopes)).m_ElevateMode = kDefaultElevateMode :=
  ⟨rfl, (recallElevateMode_absent (sampleConfig emptyScopes) rfl).2.1 rfl⟩

/-- C9. When the active scope stores a value under the canonical elevate-mode key: if the
value is valid, the elevate mode becomes its integer converted to the enum, whatever the
legacy key holds; if it is invalid, the elevate mode comes from the legacy boolean key of
the active scope, always-elevate for `true` and the compiled-in default for `false` or for
an absent legacy key. -/
theorem recallElevateMode_present (c : AppConfig) (v : QVariant)
    (h : c.stored "elevateModeEnum" = some v) :
    (v.isValid = true → (recallElevateMode c).m_ElevateMode = ElevateMode.mk v.toInt) ∧
      (v.isValid = false →
        (c.stored "elevateMode" = some (QVariant.bool true) →
          (recallElevateMode c).m_ElevateMode = ElevateMode.kAlways) ∧
        (c.stored "elevateMode" = some (QVariant.bool false) →
          (recallElevateMode c).m_ElevateMode = kDefaultElevateMode) ∧
        (c.stored "elevateMode" = none →
          (recallElevateMode c).m_ElevateMode = kDefaultElevateMode)) := by
  rw [recallElevateMode_eq, h]
  constructor
  · intro hv
    simp [hv]
  · intro hv
    refine ⟨?_, ?_, ?_⟩ <;> intro hl <;>
      simp [hv, hl, QVariant.toInt, ElevateMode.kAlways, kDefaultElevateMode]

/-- C9 at a concrete store: an invalid canonical value with the legacy boolean `true` gives
always-elevate. -/
theorem recallElevateMode_present_witness :
    (sampleConfig staleElevateScopes).stored "elevateModeEnum" = some QVariant.invalid ∧
      (recallElevateMode (sampleConfig staleElevateScopes)).m_ElevateMode
        = ElevateMode.kAlways :=
  ⟨rfl, ((recallElevateMode_present (sampleConfig staleElevateScopes) QVariant.invalid rfl).2
    rfl).1 rfl⟩

/-! ## Switching scope -/

/-- C10. `loadScope` with the scope that is already active changes nothing: the active
scope, both stores and every in-memory field stay as they were and no readiness
notification is emitted, whatever the scope holds. -/
theorem loadScope_same_scope (c : AppConfig) :
    loadScope c.m_Scopes.activeScope c = c ∧
      (loadScope c.m_Scopes.activeScope c).m_Scopes.ready = c.m_Scopes.ready := by
  have hsame : loadScope c.m_Scopes.activeScope c = c := by
    simp [loadScope]
  exact ⟨hsame, by rw [hsame]⟩

/-- The state after `loadScope` to a scope other than the active one. -/
theorem loadScope_of_ne (target : Scope) (c : AppConfig) (h : target ≠ c.m_Scopes.active) :
    loadScope target c =
      { c with
        m_Scopes :=
          { c.m_Scopes with
            active := target
            ready :=
              c.m_Scopes.ready + (if (c.m_Scopes.store target "screenName").isSome then 1 else 0) } } := by
  obtain ⟨⟨user, system, active, writable, ready⟩, _⟩ := c
  have h2 : ¬ active = target := fun e => h e.symm
  cases hs : (ConfigScopes.store ⟨user, system, active, writable, ready⟩ target "screenName").isSome <;>
    cases target <;>
    simp_all [loadScope, ConfigScopes.activeScope, ConfigScopes.setActiveScope,
      ConfigScopes.signalReady, ConfigScopes.scopeContains, ConfigScopes.resolve,
      ConfigScopes.store]

/-- C11. For a target scope other than the active one, `loadScope` makes the target active and
leaves the stored values of both scopes unchanged; it emits the readiness notification exactly
once if the target scope holds `screenName` and not at all if it does not. -/
theorem loadScope_other_scope (target : Scope) (c : AppConfig)
    (h : target ≠ c.m_Scopes.active) :
    (loadScope target c).m_Scopes.active = target ∧
      (loadScope target c).m_Scopes.user = c.m_Scopes.user ∧
      (loadScope target c).m_Scopes.system = c.m_Scopes.system ∧
      ((c.m_Scopes.store target "screenName").isSome = true →
        (loadScope target c).m_Scopes.ready = c.m_Scopes.ready + 1) ∧
      ((c.m_Scopes.store target "screenName") = none →
        (loadScope target c).m_Scopes.ready = c.m_Scopes.ready) := by
  rw [loadScope_of_ne target c h]
  refine ⟨rfl, rfl, rfl, ?_, ?_⟩
  · intro hs
    simp [hs]
  · intro hs
    simp [hs]

/-- C11 at concrete stores: switching from User to a System scope that holds a screen name
notifies once; switching from System to an empty User scope does not notify. -/
theorem loadScope_other_scope_witness :
    ((loadScope Scope.System (sampleConfig systemInstallScopes)).m_Scopes.active = Scope.System ∧
        (loadScope Scope.System (sampleConfig systemInstallScopes)).m_Scopes.ready = 1) ∧
      ((loadScope Scope.User (sampleConfig emptySystemScopes)).m_Scopes.active = Scope.User ∧
        (loadScope Scope.User (sampleConfig emptySystemScopes)).m_Scopes.ready = 0) :=
  ⟨⟨(loadScope_other_scope Scope.System (sampleConfig systemInstallScopes) (by decide)).1,
      (loadScope_other_scope Scope.System (sampleConfig systemInstallScopes)
        (by decide)).2.2.2.1 rfl⟩,
    ⟨(loadScope_other_scope Scope.User (sampleConfig emptySystemScopes) (by decide)).1,
      (loadScope_other_scope Scope.User (sampleConfig emptySystemScopes)
        (by decide)).2.2.2.2 rfl⟩⟩

/-- C13. `setLoadFromSystemScope value` is `loadScope` to System when the value is true and to
User otherwise, followed by recording the flag: afterwards the in-memory flag equals the value
and the active scope is System for true and User for false. -/
theorem setLoadFromSystemScope_loads_then_records (value : Bool) (c : AppConfig) :
    setLoadFromSystemScope value c =
        { loadScope (if value then Scope.System else Scope.User) c with
          m_LoadFromSystemScope := value } ∧
      (setLoadFromSystemScope value c).m_LoadFromSystemScope = value ∧
      (setLoadFromSystemScope value c).m_Scopes.active
        = (if value then Scope.System else Scope.User) := by
  refine ⟨?_, (setLoadFromSystemScope_active value c).2, (setLoadFromSystemScope_active value c).1⟩
  cases value <;> rfl

/-! ## Setting registry -/

/-- C12. The key table has 47 entries, indices 0..46; the entries that are not tombstones
(written as the empty string) sit at indices 0..5, 8, 9, 19, 20, 23, 24 and 37; any two
distinct indices with non-empty entries hold different keys; and every setting the code uses
resolves to a non-empty key, namely the thirteen keys listed. -/
theorem settingName_registry :
    m_SettingsName.length = 47 ∧
      (List.range 47).filter (fun i => m_SettingsName.getD i "" != "")
        = [0, 1, 2, 3, 4, 5, 8, 9, 19, 20, 23, 24, 37] ∧
      (∀ i j : Fin 47, i ≠ j → m_SettingsName.getD i "" ≠ "" → m_SettingsName.getD j "" ≠ "" →
        m_SettingsName.getD i "" ≠ m_SettingsName.getD j "") ∧
      (∀ name : Setting, name.toIndex < 47 ∧ settingName name ≠ "") ∧
      [Setting.kScreenName, Setting.kPort, Setting.kInterface, Setting.kLogLevel,
          Setting.kLogToFile, Setting.kLogFilename, Setting.kElevateModeLegacy,
          Setting.kElevateMode, Setting.kLoadSystemSettings, Setting.kServerGroupChecked,
          Setting.kUseInternalConfig, Setting.kClientGroupChecked,
          Setting.kEnableService].map settingName
        = ["screenName", "port", "interface", "logLevel2", "logToFile", "logFilename",
          "elevateMode", "elevateModeEnum", "loadFromSystemScope", "groupServerChecked",
          "useInternalConfig", "groupClientChecked", "enableService"] := by
  refine ⟨rfl, by decide, by decide, ?_, rfl⟩
  intro name
  cases name <;> exact ⟨by decide, by decide⟩

/-! ## What commit writes -/

/-- The other scope is never the scope itself. -/
theorem Scope.other_ne (s : Scope) : s.other ≠ s := by
  cases s <;> decide

/-- Keys that are not written to both scopes keep their value in the non-active scope. -/
theorem commit_store_other (c : AppConfig) (k : String) (h1 : k ≠ "loadFromSystemScope")
    (h2 : k ≠ "groupClientChecked") (h3 : k ≠ "groupServerChecked") :
    (commit c).m_Scopes.store c.m_Scopes.active.other k
      = c.m_Scopes.store c.m_Scopes.active.other k := by
  cases hw : isActiveScopeWritable c with
  | false =>
    rw [commit_store_readonly c hw]
    simp [h1, h2, h3]
  | true =>
    rw [commit_store_writable c hw]
    simp [h1, h2, h3, Scope.other_ne]

/-- C14. With a writable active scope, commit stores the elevate mode twice in the active
scope: under the canonical key the integer value of the in-memory enum, and under the legacy
key a boolean that is true exactly when the in-memory mode is always-elevate. -/
theorem commit_elevateMode_twice (c : AppConfig) (hw : isActiveScopeWritable c = true) :
    (commit c).stored (settingName Setting.kElevateMode)
        = some (QVariant.int c.m_ElevateMode.toInt) ∧
      (∃ b : Bool, (commit c).stored (settingName Setting.kElevateModeLegacy)
          = some (QVariant.bool b) ∧
        (b = true ↔ c.m_ElevateMode = ElevateMode.kAlways)) := by
  constructor
  · rw [commit_stored_writable c hw]
    simp
  · refine ⟨decide (c.m_ElevateMode = ElevateMode.kAlways), ?_, by simp⟩
    rw [commit_stored_writable c hw]
    simp

/-- C14 at a concrete configuration: always-elevate in memory is stored as the integer `1`
under `elevateModeEnum`. -/
theorem commit_elevateMode_twice_witness :
    isActiveScopeWritable alwaysElevateConfig = true ∧
      (commit alwaysElevateConfig).stored "elevateModeEnum" = some (QVariant.int 1) :=
  ⟨rfl, (commit_elevateMode_twice alwaysElevateConfig rfl).1⟩

/-- C15. Commit writes scoped settings to the active scope alone: the non-active scope keeps
its stored value for each of the ten scoped keys, the active scope stays the same, and no
in-memory field changes. -/
theorem commit_scoped_to_active (c : AppConfig) :
    (∀ k ∈ ["screenName", "port", "interface", "logLevel2", "logToFile", "logFilename",
        "elevateModeEnum", "elevateMode", "useInternalConfig", "enableService"],
      (commit c).m_Scopes.store c.m_Scopes.active.other k
        = c.m_Scopes.store c.m_Scopes.active.other k) ∧
      (commit c).m_Scopes.active = c.m_Scopes.active ∧
      (commit c).m_pDeps = c.m_pDeps ∧
      (commit c).m_ScreenName = c.m_ScreenName ∧
      (commit c).m_Port = c.m_Port ∧
      (commit c).m_Interface = c.m_Interface ∧
      (commit c).m_LogLevel = c.m_LogLevel ∧
      (commit c).m_LogToFile = c.m_LogToFile ∧
      (commit c).m_LogFilename = c.m_LogFilename ∧
      (commit c).m_ElevateMode = c.m_ElevateMode ∧
      (commit c).m_EnableService = c.m_EnableService ∧
      (commit c).m_ServerGroupChecked = c.m_ServerGroupChecked ∧
      (commit c).m_UseInternalConfig = c.m_UseInternalConfig ∧
      (commit c).m_ClientGroupChecked = c.m_ClientGroupChecked ∧
      (commit c).m_LoadFromSystemScope = c.m_LoadFromSystemScope := by
  have hm := commit_memory c
  refine ⟨?_, (commit_scopes c).1, ?_, ?_, ?_, ?_, ?_, ?_, ?_, ?_, ?_, ?_, ?_, ?_, ?_⟩
  · intro k hk
    simp only [List.mem_cons, List.mem_singleton, List.not_mem_nil, or_false] at hk
    rcases hk with h | h | h | h | h | h | h | h | h | h <;> subst h <;>
      exact commit_store_other c _ (by decide) (by decide) (by decide)
  all_goals rw [hm]

/-! ## Recall of scoped settings -/

/-- `determineScope` touches only the store's active scope and readiness count and the
in-memory flag. -/
theorem determineScope_memory (c : AppConfig) :
    determineScope c =
      { c with
        m_Scopes :=
          { c.m_Scopes with
            active := (determineScope c).m_Scopes.active
            ready := (determineScope c).m_Scopes.ready }
        m_LoadFromSystemScope := (determineScope c).m_LoadFromSystemScope } := by
  obtain ⟨⟨user, system, active, writable, ready⟩, _⟩ := c
  simp only [determineScope, setLoadFromSystemScope, loadScope, ConfigScopes.activeScope,
    ConfigScopes.setActiveScope, ConfigScopes.signalReady]
  repeat' split
  all_goals rfl

/-- C16, as stated, fails: a configuration built over empty stores has port 24800; after
`setPort 5`, recall with `port` missing from the active scope gives 5, not the first-run
default the field had at construction. -/
theorem recall_scoped_from_active_counterexample :
    portChangedConfig.stored "port" = none ∧
      (AppConfig.ctor emptyScopes { hostname := "host" } sampleDefaults).m_Port = 24800 ∧
      (recall' portChangedConfig).m_Port = 5 ∧
      (recall' portChangedConfig).m_Port
        ≠ (AppConfig.ctor emptyScopes { hostname := "host" } sampleDefaults).m_Port :=
  ⟨rfl, rfl, rfl, by decide⟩

/-- C16, amended. Recall loads port, interface, log level, log-to-file, log filename, the two
group-checked flags, use-internal-config and enable-service from the active scope alone: a
value the active scope stores under the key is what recall loads, converted to the field's
type; the recalled values do not change when the non-active scope's content is replaced;
for a key missing from the active scope the recalled value is the field's current in-memory
value; and for the recall run by the constructor that value is the first-run default. -/
theorem recall_scoped_from_active (c : AppConfig) (f : String → Option QVariant)
    (scopes : ConfigScopes) (deps : Deps) (d : MemberDefaults) :
    ((recall' (c.withStore c.m_Scopes.active.other f)).m_Port = (recall' c).m_Port ∧
      (recall' (c.withStore c.m_Scopes.active.other f)).m_Interface = (recall' c).m_Interface ∧
      (recall' (c.withStore c.m_Scopes.active.other f)).m_LogLevel = (recall' c).m_LogLevel ∧
      (recall' (c.withStore c.m_Scopes.active.other f)).m_LogToFile = (recall' c).m_LogToFile ∧
      (recall' (c.withStore c.m_Scopes.active.other f)).m_LogFilename
        = (recall' c).m_LogFilename ∧
      (recall' (c.withStore c.m_Scopes.active.other f)).m_ServerGroupChecked
        = (recall' c).m_ServerGroupChecked ∧
      (recall' (c.withStore c.m_Scopes.active.other f)).m_ClientGroupChecked
        = (recall' c).m_ClientGroupChecked ∧
      (recall' (c.withStore c.m_Scopes.active.other f)).m_UseInternalConfig
        = (recall' c).m_UseInternalConfig ∧
      (recall' (c.withStore c.m_Scopes.active.other f)).m_EnableService
        = (recall' c).m_EnableService) ∧
    ((c.stored "port" = none → (recall' c).m_Port = c.m_Port) ∧
      (c.stored "interface" = none → (recall' c).m_Interface = c.m_Interface) ∧
      (c.stored "logLevel2" = none → (recall' c).m_LogLevel = c.m_LogLevel) ∧
      (c.stored "logToFile" = none → (recall' c).m_LogToFile = c.m_LogToFile) ∧
      (c.stored "logFilename" = none → (recall' c).m_LogFilename = c.m_LogFilename) ∧
      (c.stored "groupServerChecked" = none →
        (recall' c).m_ServerGroupChecked = c.m_ServerGroupChecked) ∧
      (c.stored "groupClientChecked" = none →
        (recall' c).m_ClientGroupChecked = c.m_ClientGroupChecked) ∧
      (c.stored "useInternalConfig" = none →
        (recall' c).m_UseInternalConfig = c.m_UseInternalConfig) ∧
      (c.stored "enableService" = none → (recall' c).m_EnableService = c.m_EnableService)) ∧
    ((∀ v, c.stored "port" = some v → (recall' c).m_Port = v.toInt) ∧
      (∀ v, c.stored "interface" = some v → (recall' c).m_Interface = v.toString) ∧
      (∀ v, c.stored "logLevel2" = some v → (recall' c).m_LogLevel = v.toInt) ∧
      (∀ v, c.stored "logToFile" = some v → (recall' c).m_LogToFile = v.toBool) ∧
      (∀ v, c.stored "logFilename" = some v → (recall' c).m_LogFilename = v.toString) ∧
      (∀ v, c.stored "groupServerChecked" = some v →
        (recall' c).m_ServerGroupChecked = v.toBool) ∧
      (∀ v, c.stored "groupClientChecked" = some v →
        (recall' c).m_ClientGroupChecked = v.toBool) ∧
      (∀ v, c.stored "useInternalConfig" = some v →
        (recall' c).m_UseInternalConfig = v.toBool) ∧
      (∀ v, c.stored "enableService" = some v → (recall' c).m_EnableService = v.toBool)) ∧
    (((AppConfig.ctor scopes deps d).stored "port" = none →
        (AppConfig.ctor scopes deps d).m_Port = d.m_Port) ∧
      ((AppConfig.ctor scopes deps d).stored "interface" = none →
        (AppConfig.ctor scopes deps d).m_Interface = d.m_Interface) ∧
      ((AppConfig.ctor scopes deps d).stored "logLevel2" = none →
        (AppConfig.ctor scopes deps d).m_LogLevel = d.m_LogLevel) ∧
      ((AppConfig.ctor scopes deps d).stored "logToFile" = none →
        (AppConfig.ctor scopes deps d).m_LogToFile = d.m_LogToFile) ∧
      ((AppConfig.ctor scopes deps d).stored "logFilename" = none →
        (AppConfig.ctor scopes deps d).m_LogFilename = d.m_LogFilename) ∧
      ((AppConfig.ctor scopes deps d).stored "groupServerChecked" = none →
        (AppConfig.ctor scopes deps d).m_ServerGroupChecked = d.m_ServerGroupChecked) ∧
      ((AppConfig.ctor scopes deps d).stored "groupClientChecked" = none →
        (AppConfig.ctor scopes deps d).m_ClientGroupChecked = d.m_ClientGroupChecked) ∧
      ((AppConfig.ctor scopes deps d).stored "useInternalConfig" = none →
        (AppConfig.ctor scopes deps d).m_UseInternalConfig = d.m_UseInternalConfig) ∧
      ((AppConfig.ctor scopes deps d).stored "enableService" = none →
        (AppConfig.ctor scopes deps d).m_EnableService = d.m_EnableService)) := by
  refine ⟨?_, ?_, ?_, ?_⟩
  · obtain ⟨⟨user, system, active, writable, ready⟩, deps, sn, port, itf, ll, ltf, lfn, em, es,
      sgc, uic, cgc, lfss⟩ := c
    cases active <;>
      simp [recall_eq, AppConfig.withStore, Scope.other, AppConfig.stored, ConfigScopes.store]
  · rw [recall_eq c]
    refine ⟨?_, ?_, ?_, ?_, ?_, ?_, ?_, ?_, ?_⟩ <;> intro h <;>
      simp [h, QVariant.toInt, QVariant.toBool, QVariant.toString]
  · rw [recall_eq c]
    refine ⟨?_, ?_, ?_, ?_, ?_, ?_, ?_, ?_, ?_⟩ <;> intro v h <;>
      simp only [h, Option.getD_some]
  · have hd := determineScope_memory (AppConfig.initial scopes deps d)
    have hs : ∀ k, (AppConfig.ctor scopes deps d).stored k
        = (determineScope (AppConfig.initial scopes deps d)).stored k := by
      intro k
      unfold AppConfig.ctor
      rw [recall_eq]
      rfl
    simp only [hs]
    unfold AppConfig.ctor
    rw [recall_eq (determineScope (AppConfig.initial scopes deps d))]
    refine ⟨?_, ?_, ?_, ?_, ?_, ?_, ?_, ?_, ?_⟩ <;> intro h <;>
      simp only [h, Option.getD_none, QVariant.toInt, QVariant.toBool, QVariant.toString] <;>
      rw [hd] <;> rfl

/-! ## Log level -/

/-- C18, as stated, fails: `setLogLevel 7` leaves the log level at 7, outside the four-entry
table, and `logLevelText` has no entry to read there. -/
theorem logLevelText_counterexample :
    (setLogLevel 7 (sampleConfig emptyScopes)).1.m_LogLevel = 7 ∧
      kLogLevelNames.length = 4 ∧
      (setLogLevel 7 (sampleConfig emptyScopes)).1.logLevelText = none :=
  ⟨rfl, rfl, rfl⟩

/-- C18, amended. `setLogLevel i` and the recall of an integer `i` stored under `logLevel2`
make the log level `i` without a range check, and `logLevelText` is defined exactly when the
log level is an index of the four-entry table, 0..3. -/
theorem logLevelText_defined_iff (c : AppConfig) (i : Int) :
    (setLogLevel i c).1.m_LogLevel = i ∧
      (c.stored "logLevel2" = some (QVariant.int i) → (recall' c).m_LogLevel = i) ∧
      (c.logLevelText.isSome = true ↔ 0 ≤ c.m_LogLevel ∧ c.m_LogLevel ≤ 3) := by
  refine ⟨rfl, ?_, ?_⟩
  · intro h
    rw [recall_eq c]
    simp [h, QVariant.toInt]
  · unfold AppConfig.logLevelText AppConfig.logLevel
    by_cases hneg : c.m_LogLevel < 0
    · simp [hneg]
    · simp only [hneg, if_false, kLogLevelNames]
      rw [Option.isSome_iff_ne_none, ne_eq, List.getElem?_eq_none_iff]
      simp only [List.length_cons, List.length_nil]
      omega

/-! ## Screen name after recall -/

/-- A list trimmed at both ends has nothing left to drop at the front. -/
theorem trim_list_fixed (p : Char → Bool) (l : List Char) :
    List.dropWhile p (List.rdropWhile p (List.dropWhile p l))
      = List.rdropWhile p (List.dropWhile p l) := by
  rw [List.dropWhile_eq_self_iff]
  intro hl
  have hne : List.rdropWhile p (List.dropWhile p l) ≠ [] := List.length_pos.mp hl
  have hpre : List.rdropWhile p (List.dropWhile p l) <+: List.dropWhile p l :=
    List.rdropWhile_prefix p _
  have hhead := hpre.head hne
  have hnot := List.head_dropWhile_not p l (hpre.ne_nil hne)
  rw [← hhead] at hnot
  clear hhead hpre
  generalize List.rdropWhile p (List.dropWhile p l) = x at hl hne hnot
  cases x with
  | nil => exact absurd rfl hne
  | cons a t => simpa using hnot

/-- Trimming a trimmed string changes nothing. -/
theorem QString.trimmed_trimmed (s : String) :
    QString.trimmed (QString.trimmed s) = QString.trimmed s := by
  have h1 : ∀ t : String, QString.trimmed t
      = String.mk (List.rdropWhile QChar.isSpace (List.dropWhile QChar.isSpace t.data)) :=
    fun _ => rfl
  rw [h1 (QString.trimmed s), h1 s]
  simp only [trim_list_fixed, List.rdropWhile_idempotent]


/-- C19. If the host name is non-empty after trimming, then after `recallScreenName` the
screen name is non-empty after trimming, whatever the prior screen name and the active
scope hold; and when it comes from the store or the prior in-memory value (their trimmed
text being non-empty) it is that trimmed text and has no leading or trailing whitespace. -/
theorem recallScreenName_never_blank (c : AppConfig)
    (h : QString.trimmed c.m_pDeps.hostname ≠ "") :
    QString.trimmed (recallScreenName c).m_ScreenName ≠ "" ∧
      (QString.trimmed
          ((c.stored "screenName").getD (QVariant.string c.m_ScreenName)).toString ≠ "" →
        (recallScreenName c).m_ScreenName = QString.trimmed
          ((c.stored "screenName").getD (QVariant.string c.m_ScreenName)).toString ∧
        QString.trimmed (recallScreenName c).m_ScreenName = (recallScreenName c).m_ScreenName) := by
  rw [recallScreenName_eq]
  by_cases ht : QString.trimmed
      ((c.stored "screenName").getD (QVariant.string c.m_ScreenName)).toString = ""
  · simp [ht, h]
  · simp [ht, QString.trimmed_trimmed]

/-- C19 at a concrete store: the stored screen name is blank and the host name is `"host"`. -/
theorem recallScreenName_never_blank_witness :
    QString.trimmed (sampleConfig blankNameScopes).m_pDeps.hostname ≠ "" ∧
      QString.trimmed (recallScreenName (sampleConfig blankNameScopes)).m_ScreenName ≠ "" :=
  ⟨by decide, (recallScreenName_never_blank (sampleConfig blankNameScopes) (by decide)).1⟩

/-! ## Flag and scope after construction -/

/-- The merge-read as two nested defaults. -/
theorem findInAllScopes_eq (name : Setting) (defaultValue : QVariant) (c : AppConfig) :
    findInAllScopes name defaultValue c =
      ((c.m_Scopes.store c.m_Scopes.active (settingName name)).getD
        ((c.m_Scopes.store c.m_Scopes.active.other (settingName name)).getD defaultValue)) := by
  obtain ⟨⟨user, system, active, writable, ready⟩, _⟩ := c
  cases active <;>
    simp only [findInAllScopes, ConfigScopes.scopeContains, ConfigScopes.getFromScope,
      ConfigScopes.resolve, ConfigScopes.activeScope, ConfigScopes.store, Scope.other] <;>
    cases user (settingName name) <;> cases system (settingName name) <;> simp

/-- `determineScope` leaves the stored values of both scopes alone. -/
theorem determineScope_store (c : AppConfig) (sc : Scope) (k : String) :
    (determineScope c).m_Scopes.store sc k = c.m_Scopes.store sc k := by
  rw [determineScope_memory]
  cases sc <;> rfl

/-- The flag and the active scope the constructor ends with. -/
theorem ctor_flag (scopes : ConfigScopes) (deps : Deps) (d : MemberDefaults) :
    (AppConfig.ctor scopes deps d).m_Scopes.active
        = (determineScope (AppConfig.initial scopes deps d)).m_Scopes.active ∧
      (AppConfig.ctor scopes deps d).m_LoadFromSystemScope
        = ((scopes.store (determineScope (AppConfig.initial scopes deps d)).m_Scopes.active
              "loadFromSystemScope").getD
            ((scopes.store (determineScope (AppConfig.initial scopes deps d)).m_Scopes.active.other
              "loadFromSystemScope").getD
              (QVariant.bool
                (determineScope (AppConfig.initial scopes deps d)).m_LoadFromSystemScope))).toBool := by
  unfold AppConfig.ctor
  rw [recall_eq]
  refine ⟨rfl, ?_⟩
  simp only [findInAllScopes_eq, determineScope_store, settingName_kLoadSystemSettings]
  rfl

/-- C17, as stated, fails: with `loadFromSystemScope` stored as true in User and as false in
System, the constructor selects System, and recall then reads the flag from the active
System scope: the flag ends false while System is active. -/
theorem ctor_flag_matches_scope_counterexample :
    (conflictingFlagScopes.user "loadFromSystemScope").isSome = true ∧
      (AppConfig.ctor conflictingFlagScopes { hostname := "host" } sampleDefaults).m_Scopes.active
        = Scope.System ∧
      (AppConfig.ctor conflictingFlagScopes { hostname := "host" }
        sampleDefaults).m_LoadFromSystemScope = false :=
  ⟨rfl, rfl, rfl⟩

/-- C17, amended. After the constructor has run `determineScope` and recall, whenever
`determineScope` selected a scope (User holds `loadFromSystemScope` or System holds
`screenName`), the in-memory flag is true exactly when the active scope is System, provided
the System store holds `loadFromSystemScope` with a false value only when the User store
holds it with a false value too. -/
theorem ctor_flag_matches_scope (scopes : ConfigScopes) (deps : Deps) (d : MemberDefaults)
    (hsel : (scopes.user "loadFromSystemScope").isSome = true ∨
      (scopes.system "screenName").isSome = true)
    (hagree : ∀ w, scopes.system "loadFromSystemScope" = some w → w.toBool = false →
      ∃ u, scopes.user "loadFromSystemScope" = some u ∧ u.toBool = false) :
    ((AppConfig.ctor scopes deps d).m_LoadFromSystemScope = true ↔
      (AppConfig.ctor scopes deps d).m_Scopes.active = Scope.System) := by
  obtain ⟨hact, hflag⟩ := ctor_flag scopes deps d
  rw [hact, hflag]
  cases hu : scopes.user "loadFromSystemScope" with
  | some u =>
    have hu2 : (AppConfig.initial scopes deps d).m_Scopes.user "loadFromSystemScope" = some u := hu
    rw [determineScope_of_user_value _ u hu2]
    obtain ⟨ha, hf⟩ := setLoadFromSystemScope_active u.toBool (AppConfig.initial scopes deps d)
    rw [ha, hf]
    cases hb : u.toBool with
    | false => simp [ConfigScopes.store, hu, hb]
    | true =>
      cases hs : scopes.system "loadFromSystemScope" with
      | none => simp [ConfigScopes.store, Scope.other, hu, hs, hb]
      | some w =>
        cases hw : w.toBool with
        | true => simp [ConfigScopes.store, hs, hw]
        | false =>
          obtain ⟨u2, hu3, hu4⟩ := hagree w hs hw
          rw [hu] at hu3
          cases hu3
          rw [hb] at hu4
          cases hu4
  | none =>
    have hsys : (scopes.system "screenName").isSome = true := by
      rcases hsel with h | h
      · simp [hu] at h
      · exact h
    have hu2 : (AppConfig.initial scopes deps d).m_Scopes.user "loadFromSystemScope" = none := hu
    rw [determineScope_of_system_name _ hu2 hsys]
    obtain ⟨ha, hf⟩ := setLoadFromSystemScope_active true (AppConfig.initial scopes deps d)
    rw [ha, hf]
    cases hs : scopes.system "loadFromSystemScope" with
    | none => simp [ConfigScopes.store, Scope.other, hu, hs, QVariant.toBool]
    | some w =>
      cases hw : w.toBool with
      | true => simp [ConfigScopes.store, hs, hw]
      | false =>
        obtain ⟨u2, hu3, _⟩ := hagree w hs hw
        rw [hu] at hu3
        cases hu3

/-- C17 amended, at a concrete store: User empty, System holds a screen name; the flag is
true and System is active. -/
theorem ctor_flag_matches_scope_witness :
    (systemInstallScopes.system "screenName").isSome = true ∧
      (AppConfig.ctor systemInstallScopes { hostname := "host" } sampleDefaults).m_Scopes.active
        = Scope.System ∧
      ((AppConfig.ctor systemInstallScopes { hostname := "host" }
          sampleDefaults).m_LoadFromSystemScope = true ↔
        (AppConfig.ctor systemInstallScopes { hostname := "host" } sampleDefaults).m_Scopes.active
          = Scope.System) :=
  ⟨rfl, rfl, ctor_flag_matches_scope systemInstallScopes { hostname := "host" } sampleDefaults
    (Or.inr rfl)
    (fun w hw => by
      have hw2 : (none : Option QVariant) = some w := hw
      cases hw2)⟩

end deskflow.gui
